import Mathlib

/-!
Verification of the baby-nutrition-ai service core: a shallow embedding of
its domain model (profiles, meals, plans), the rule engine that filters
LLM-generated meals, the meal-plan parsing layer, the conversational
handler, and the conversation store, together with proofs of the
behavioural properties stated in the specification.

Python exceptions are modelled with an explicit error type `PyErr`;
functions that can raise return `Except PyErr _`.  Machine floats in the
source only carry user-entered decimal values that are compared against
small integer bounds, so they are modelled as rationals.
-/

namespace BabyNutritionAI

/-- Python runtime errors that the modelled code can raise. -/
inductive PyErr where
  | typeError (msg : String)
  | attributeError (msg : String)
  | validationError (msg : String)
  deriving Repr, DecidableEq

/-! ## Dates (`datetime.date`)

`datetime.date` is a (year, month, day) triple ordered lexicographically.
Arithmetic in `age_in_months` never consults month lengths, so the model
keeps the three fields and the lexicographic comparison.
-/

/-- A calendar date, as in Python `datetime.date`. -/
structure Date where
  year : Nat
  month : Nat
  day : Nat
  deriving Repr, DecidableEq

/-- Lexicographic comparison of dates, as Python compares `date` values. -/
def Date.ble (a b : Date) : Bool :=
  decide (a.year < b.year ∨ (a.year = b.year ∧
    (a.month < b.month ∨ (a.month = b.month ∧ a.day ≤ b.day))))

/-- Year is in the `date` range and month/day designate a real calendar day
(`datetime.date(y, m, d)` raises `ValueError` otherwise). -/
def Date.isReal (d : Date) : Bool :=
  let leap := (d.year % 4 = 0 ∧ d.year % 100 ≠ 0) ∨ d.year % 400 = 0
  let daysInMonth :=
    if d.month = 2 then (if leap then 29 else 28)
    else if d.month = 4 ∨ d.month = 6 ∨ d.month = 9 ∨ d.month = 11 then 30
    else 31
  decide (1 ≤ d.year ∧ d.year ≤ 9999 ∧ 1 ≤ d.month ∧ d.month ≤ 12 ∧
    1 ≤ d.day ∧ d.day ≤ daysInMonth)

/-- Model of `BabyProfile.age_in_months`: whole months between `dob` and `ref`,
floored at zero.  Mirrors
`months = (ref.year - dob.year) * 12 + (ref.month - dob.month);
if ref.day < dob.day: months -= 1; return max(0, months)`. -/
def age_in_months (dob ref : Date) : Int :=
  let months : Int :=
    ((ref.year : Int) - (dob.year : Int)) * 12 +
      ((ref.month : Int) - (dob.month : Int))
  let months := if ref.day < dob.day then months - 1 else months
  max 0 months

/-! ## Python string primitives

Python strings are modelled through their character lists.  `str.lower`,
`str.strip`, `str.split(",")` and the substring test `needle in hay` are
reimplemented on `List Char` so that they reduce inside the kernel.
-/

/-- Python `str.lower()` (all source data is ASCII). -/
def pyLower (s : String) : String := ⟨s.data.map Char.toLower⟩

/-- Python `str.strip()`: remove leading and trailing whitespace. -/
def pyStrip (s : String) : String :=
  ⟨((s.data.dropWhile Char.isWhitespace).reverse.dropWhile Char.isWhitespace).reverse⟩

/-- Helper for `pySplitComma`: split at every comma, keeping empty parts. -/
def splitCommaAux (cur : List Char) : List Char → List (List Char)
  | [] => [cur.reverse]
  | c :: rest =>
    if c = ',' then cur.reverse :: splitCommaAux [] rest
    else splitCommaAux (c :: cur) rest

/-- Python `s.split(",")`. -/
def pySplitComma (s : String) : List String :=
  (splitCommaAux [] s.data).map List.asString

/-- Substring test `chSub needle hay`: `needle` occurs contiguously in `hay`. -/
def chSub (needle hay : List Char) : Bool :=
  match hay with
  | [] => needle.isEmpty
  | _ :: t => needle.isPrefixOf hay || chSub needle t

/-- Python `needle in hay` on strings. -/
def containsSub (hay needle : String) : Bool := chSub needle.data hay.data

/-- Python `[f.strip() for f in s.split(",") if f.strip()]`, the comma-list
parser used for allergies, foods and meal-plan constraints. -/
def commaList (s : String) : List String :=
  ((pySplitComma s).map pyStrip).filter (fun f => !f.isEmpty)

/-! ## Domain model (`models/baby_profile.py`, `models/meal_plan.py`) -/

/-- The `FeedingType` enum. -/
inductive FeedingType where
  | breastfed
  | formula
  | mixed
  deriving Repr, DecidableEq

/-- The `Preference` enum. -/
inductive Preference where
  | veg
  | egg
  | non_veg
  deriving Repr, DecidableEq

/-- The `BabyProfile` pydantic model.  `baby_name` is not a declared pydantic
field in the source; `model_copy(update=...)` nevertheless attaches it as a
plain attribute without validation, which is modelled here as an extra
optional field. -/
structure BabyProfile where
  baby_id : String
  dob : Date
  gender : Option String := none
  birth_weight_kg : Option ℚ := none
  current_weight_kg : Option ℚ := none
  height_cm : Option ℚ := none
  feeding_type : FeedingType := .mixed
  preferences : List Preference := []
  allergies : List String := []
  foods_introduced : List String := []
  location : Option String := none
  baby_name : Option String := none
  deriving Repr, DecidableEq

/-- The `Meal` pydantic model. -/
structure Meal where
  time : String
  name : String
  item : String
  quantity : String
  texture : String
  notes : Option String := none
  deriving Repr, DecidableEq

/-- The `MealPlan` pydantic model. -/
structure MealPlan where
  plan_date : Date
  age_in_months : Int
  meals : List Meal := []
  notes : Option String := none
  deriving Repr, DecidableEq

/-! ## Rule configuration (`config.get_food_rules`)

The YAML policy file is external data; the engine reads it through
`dict.get` calls with inline defaults.  The model mirrors that shape: every
key the engine reads is an `Option` whose `getD` default is the literal
from the corresponding `.get(...)` call site.
-/

/-- One entry of the configured `age_buckets` list. -/
structure AgeBucket where
  name : Option String := none
  min_months : Option Int := none
  max_months : Option Int := none
  deriving Repr, DecidableEq

/-- The configured `safety` sub-dictionary. -/
structure SafetyRules where
  no_salt_sugar_until_months : Option Int := none
  no_honey_until_months : Option Int := none
  no_whole_nuts_until_months : Option Int := none
  deriving Repr, DecidableEq

/-- The loaded food-rules configuration dictionary. -/
structure FoodRules where
  age_buckets : List AgeBucket := []
  texture_by_age_months : List (String × List String) := []
  safety : Option SafetyRules := none
  disclaimer : Option String := none
  deriving Repr, DecidableEq

/-! ## Rule engine (`rules/engine.py`) -/

/-- Constant `FORBIDDEN_ITEMS_BEFORE_12M` (a Python set; only iterated with `any`,
so the element order is irrelevant). -/
def FORBIDDEN_ITEMS_BEFORE_12M : List String :=
  ["salt", "sugar", "honey", "jaggery", "gur"]

/-- Constant `FORBIDDEN_WHOLE_NUTS`. -/
def FORBIDDEN_WHOLE_NUTS : List String :=
  ["whole nuts", "whole peanuts", "whole almonds", "whole cashews"]

/-- Model of `RuleEngine.age_bucket`: first configured bucket whose
`[min_months, max_months)` range contains the age, else `"12+"`. -/
def age_bucket (rules : FoodRules) (age_months : Int) : String :=
  match rules.age_buckets.find? (fun b =>
      decide ((b.min_months.getD 0) ≤ age_months ∧
        age_months < (b.max_months.getD 999))) with
  | some b => b.name.getD "12+"
  | none => "12+"

/-- Model of `RuleEngine.allowed_textures`: configured texture list for the age
bucket, defaulting to `["family_food", "varied"]`. -/
def allowed_textures (rules : FoodRules) (age_months : Int) : List String :=
  match rules.texture_by_age_months.lookup (age_bucket rules age_months) with
  | some l => l
  | none => ["family_food", "varied"]

/-- The meal loop of `RuleEngine.validate_and_filter_meals`.

`allowedTextures` is the value of `self.allowed_textures(age)`, which the
source immediately wraps in `set(...)`: membership tests on the set agree
with membership tests on the list, but the texture-override branch then
evaluates `allowed_textures[0]` on that set, which raises `TypeError`
(`set` objects are not subscriptable), so reaching that branch aborts the
whole call. -/
def filterLoop (allergiesLower : List String)
    (noSaltSugar noHoney noWholeNuts : Bool)
    (allowedTextures : List String) : List Meal → Except PyErr (List Meal)
  | [] => .ok []
  | m :: rest =>
    let itemLower := pyLower m.item
    if allergiesLower.any (fun a => containsSub itemLower a) then
      filterLoop allergiesLower noSaltSugar noHoney noWholeNuts
        allowedTextures rest
    else if noSaltSugar &&
        FORBIDDEN_ITEMS_BEFORE_12M.any (fun f => containsSub itemLower f) then
      filterLoop allergiesLower noSaltSugar noHoney noWholeNuts
        allowedTextures rest
    else if noHoney && containsSub itemLower "honey" then
      filterLoop allergiesLower noSaltSugar noHoney noWholeNuts
        allowedTextures rest
    else if noWholeNuts &&
        FORBIDDEN_WHOLE_NUTS.any (fun n => containsSub itemLower n) then
      filterLoop allergiesLower noSaltSugar noHoney noWholeNuts
        allowedTextures rest
    else if !allowedTextures.isEmpty &&
        !((allowedTextures.map pyLower).contains (pyLower m.texture)) then
      .error (.typeError "set object is not subscriptable")
    else
      match filterLoop allergiesLower noSaltSugar noHoney noWholeNuts
          allowedTextures rest with
      | .error e => .error e
      | .ok out => .ok (m :: out)

/-- Model of `RuleEngine.validate_and_filter_meals`.  `today` stands for
`date.today()` inside `profile.age_in_months()`. -/
def validate_and_filter_meals (rules : FoodRules) (today : Date)
    (profile : BabyProfile) (meals : List Meal) : Except PyErr (List Meal) :=
  let age := age_in_months profile.dob today
  let allergiesLower := profile.allergies.map pyLower
  let allowedTextures := allowed_textures rules age
  let noSaltSugar :=
    decide (age < ((rules.safety.bind
      SafetyRules.no_salt_sugar_until_months).getD 12))
  let noHoney :=
    decide (age < ((rules.safety.bind
      SafetyRules.no_honey_until_months).getD 12))
  let noWholeNuts :=
    decide (age < ((rules.safety.bind
      SafetyRules.no_whole_nuts_until_months).getD 60))
  filterLoop allergiesLower noSaltSugar noHoney noWholeNuts
    allowedTextures meals

/-! ## LLM meal-plan parsing (`services/ai_service.py`)

The decoded JSON value is modelled explicitly; `decoded = none` stands for
`json.loads` raising `JSONDecodeError` on the (fence-stripped) response
text, `decoded = some j` for a successful decode to the value `j`.
-/

/-- A decoded Python JSON value. -/
inductive Json where
  | null
  | bool (b : Bool)
  | num (q : ℚ)
  | str (s : String)
  | arr (elems : List Json)
  | obj (fields : List (String × Json))
  deriving Repr

/-- Python `dict.get(key)` on a decoded JSON object (modelled objects have
unique keys, as `json.loads` keeps one value per key). -/
def dictGet (fields : List (String × Json)) (key : String) : Option Json :=
  fields.lookup key

/-- Python `str(...)` of a decoded JSON value, used on the `item`,
`quantity` and `texture` fields.  Container and non-integral renderings are
abbreviated: no verified property depends on them. -/
def pyStr : Json → String
  | .str s => s
  | .null => "None"
  | .bool true => "True"
  | .bool false => "False"
  | .num q => if q.den = 1 then toString q.num else toString q
  | .arr _ => "[...]"
  | .obj _ => "\x7b...\x7d"

/-- The `meal_times` positional defaults. -/
def meal_times : List (String × String) :=
  [("07:00-09:00", "breakfast"), ("10:00-11:00", "mid_morning"),
   ("12:00-14:00", "lunch"), ("16:00-18:00", "evening")]

/-- Pydantic coercion of a JSON value into a `str` field (`Meal.time`,
`Meal.name`): only strings are accepted, anything else raises
`ValidationError` when the `Meal` is constructed. -/
def jsonToStr? (j : Json) : Except PyErr String :=
  match j with
  | .str s => .ok s
  | _ => .error (.validationError "Input should be a valid string")

/-- Building one `Meal` from the `i`-th decoded entry (a JSON object), as
in the loop body of `AIService._parse_meal_plan_response`. -/
def build_meal (i : Nat) (m : List (String × Json)) : Except PyErr Meal := do
  let slot := meal_times.getD i ("", "meal")
  let time ← match dictGet m "time" with
    | none => .ok slot.1
    | some j => jsonToStr? j
  let name ← match dictGet m "name" with
    | none => .ok slot.2
    | some j => jsonToStr? j
  let item :=
    let s := pyStrip (pyStr ((dictGet m "item").getD (.str "")))
    if s = "" then "Consult pediatrician" else s
  let quantity :=
    let s := pyStrip (pyStr ((dictGet m "quantity").getD (.str "")))
    if s = "" then "-" else s
  let texture :=
    let s := pyStrip (pyStr ((dictGet m "texture").getD (.str "")))
    if s = "" then "soft" else s
  let notes ← match dictGet m "notes" with
    | none => .ok none
    | some .null => .ok none
    | some (.str s) => .ok (some s)
    | some _ => .error (.validationError "Input should be a valid string")
  .ok { time := time, name := name, item := item, quantity := quantity,
        texture := texture, notes := notes }

/-- Loop `for i, m in enumerate(raw_meals[:4])`: non-dict entries are skipped
but still advance the index. -/
def build_meals : Nat → List Json → Except PyErr (List Meal)
  | _, [] => .ok []
  | i, j :: rest =>
    match j with
    | .obj fields => do
      let meal ← build_meal i fields
      let more ← build_meals (i + 1) rest
      .ok (meal :: more)
    | _ => build_meals (i + 1) rest

/-- Model of `AIService._parse_meal_plan_response`.

On `JSONDecodeError` the source returns `[]` immediately (skipping the rule
filter).  On a successful decode it evaluates `data.get("meals", [])`,
which raises `AttributeError` when the top-level value is not an object;
it then slices `raw_meals[:4]`, which raises `TypeError` when the `meals`
value is neither a list nor a string. -/
def parse_meal_plan_response (rules : FoodRules) (today : Date)
    (profile : BabyProfile) (decoded : Option Json) : Except PyErr (List Meal) :=
  match decoded with
  | none => .ok []
  | some (.obj fields) =>
    let raw_meals := (dictGet fields "meals").getD (.arr [])
    match raw_meals with
    | .arr l => do
      let meals ← build_meals 0 (l.take 4)
      let validated ← validate_and_filter_meals rules today profile meals
      .ok (validated.take 4)
    | .str _ => do
      -- slicing a string yields a string; iterating it yields characters,
      -- none of which is a dict, so no meal is built
      let validated ← validate_and_filter_meals rules today profile []
      .ok (validated.take 4)
    | _ => .error (.typeError "object is not subscriptable")
  | some _ => .error (.attributeError "object has no attribute get")

/-- Model of `AIService.generate_meal_plan` after the LLM call: parse the response
and wrap the surviving meals in a `MealPlan` carrying the disclaimer. -/
def generate_meal_plan (rules : FoodRules) (today : Date)
    (profile : BabyProfile) (decoded : Option Json) : Except PyErr MealPlan :=
  match parse_meal_plan_response rules today profile decoded with
  | .error e => .error e
  | .ok meals => .ok
    { plan_date := today,
      age_in_months := age_in_months profile.dob today,
      meals := meals,
      notes := some (rules.disclaimer.getD "") }

/-! ## Tool catalog (`llm/openai_client.py`) -/

/-- The `function` sub-dictionary of one tool entry.  The source defines no
`parameters` key on either entry. -/
structure ToolFunctionSpec where
  name : String
  description : String
  parameters : Option (List String) := none
  deriving Repr, DecidableEq

/-- One entry of `TOOLS_DEFINITION`. -/
structure ToolEntry where
  type : String
  function : ToolFunctionSpec
  deriving Repr, DecidableEq

/-- Constant `TOOLS_DEFINITION`, as defined in the source. -/
def TOOLS_DEFINITION : List ToolEntry :=
  [⟨"function",
    { name := "get_meal_plan",
      description :=
        "Get today\x27s age-appropriate meal plan (4 meals) for the baby." }⟩,
   ⟨"function",
    { name := "get_story",
      description := "Get a short bedtime story for the baby." }⟩]

/-- The tool catalog as the specification states it: tool names with their
argument names, written from the spec text for comparison against
`TOOLS_DEFINITION`. -/
def specToolCatalog : List (String × List String) :=
  [("get_meal_plan", ["exclude_foods", "swap_meal", "include_foods"]),
   ("get_story", []),
   ("log_food_introduced", ["foods"]),
   ("update_profile",
    ["baby_name", "gender", "birth_weight_kg", "dob", "allergies",
     "feeding_type", "preferences", "foods_introduced", "location",
     "current_weight_kg", "height_cm"])]

/-! ## Meal-plan tool execution
(`services/meal_plan_service.py`, `services/conversational_handler.py`) -/

/-- The no-profile reply of `MealPlanService.get_today_plan`. -/
def NO_PROFILE_MESSAGE : String :=
  "No profile found. Send START to create your baby\x27s profile first."

/-- Keyword parameter names in the signature of
`MealPlanService.get_today_plan` (`phone`, `baby_id`). -/
def get_today_plan_params : List String := ["phone", "baby_id"]

/-- Body of `MealPlanService.get_today_plan`, abstracted over whether the
store has a profile and over the generation outcome. -/
def get_today_plan (profileExists : Bool)
    (generation : Except PyErr String) (disclaimer : String) : String :=
  if !profileExists then NO_PROFILE_MESSAGE
  else
    match generation with
    | .ok text => text
    | .error _ => "Sorry, we couldn\x27t generate your meal plan. " ++ disclaimer

/-- Python keyword binding for `get_today_plan`: a call with a keyword
argument that is not a parameter of the signature raises `TypeError`
before the body runs. -/
def call_get_today_plan (kwargs : List String) (profileExists : Bool)
    (generation : Except PyErr String) (disclaimer : String) :
    Except PyErr String :=
  if kwargs.all (fun k => get_today_plan_params.contains k) then
    .ok (get_today_plan profileExists generation disclaimer)
  else
    .error (.typeError "get_today_plan got an unexpected keyword argument")

/-- Free-text arguments of a `get_meal_plan` tool call. -/
structure GetMealPlanArgs where
  exclude_foods : Option String := none
  swap_meal : Option String := none
  include_foods : Option String := none
  deriving Repr, DecidableEq

/-- The constraints dictionary the handler assembles. -/
structure MealPlanConstraints where
  exclude_foods : Option (List String) := none
  swap_meal : Option String := none
  include_foods : Option (List String) := none
  deriving Repr, DecidableEq

/-- The `get_meal_plan` branch of `execute_tool` inside
`ConversationalHandler.handle`: builds the constraints dictionary from the
arguments and then calls
`get_today_plan(phone, constraints=constraints if constraints else None)`
— i.e. with the keyword `constraints`, which the signature does not
declare. -/
def execute_tool_get_meal_plan (args : GetMealPlanArgs)
    (profileExists : Bool) (generation : Except PyErr String)
    (disclaimer : String) : Except PyErr String :=
  let constraints : MealPlanConstraints :=
    { exclude_foods :=
        args.exclude_foods.bind
          (fun s => if s ≠ "" then some (commaList s) else none),
      swap_meal :=
        args.swap_meal.bind
          (fun s => if s ≠ "" then some (pyStrip s) else none),
      include_foods :=
        args.include_foods.bind
          (fun s => if s ≠ "" then some (commaList s) else none) }
  let _ := constraints
  call_get_today_plan ["constraints"] profileExists generation disclaimer

/-! ## Conversation store (`persistence/conversation_store.py`) -/

/-- One `(role, content)` history entry. -/
structure ChatMsg where
  role : String
  content : String
  deriving Repr, DecidableEq

/-- Constant `MAX_MESSAGES`. -/
def MAX_MESSAGES : Nat := 10

/-- Python `l[-n:]`. -/
def takeLast (n : Nat) (l : List α) : List α := l.drop (l.length - n)

/-- Model of `ConversationStore.get`: the stored list truncated to the last
`MAX_MESSAGES` entries. -/
def conversation_get (stored : List ChatMsg) : List ChatMsg :=
  takeLast MAX_MESSAGES stored

/-- Model of `ConversationStore.append`: re-read, append, trim, write back. -/
def conversation_append (stored : List ChatMsg) (role content : String) :
    List ChatMsg :=
  takeLast MAX_MESSAGES (conversation_get stored ++ [⟨role, content⟩])

/-! ## Conversational handler turn (`ConversationalHandler.handle`) -/

/-- Outcome of the `chat_with_tools` call: `raised` covers both an LLM
transport failure and a tool executor raising inside the loop (the source
wraps the whole call in one `try`). -/
inductive ChatOutcome where
  | raised
  | returned (text : String)
  deriving Repr, DecidableEq

/-- The fixed apology returned when `chat_with_tools` raises. -/
def FALLBACK_MESSAGE : String :=
  "Sorry, I couldn\x27t process that. Try commands: START, PROFILE, TODAY, STORY."

/-- The reply for an empty LLM response. -/
def UNSURE_MESSAGE : String :=
  "I\x27m not sure how to help with that. Try: TODAY for meals, STORY for a bedtime story."

/-- Model of `ConversationalHandler.handle`: returns the reply together with the
stored conversation list after the turn. -/
def handle (stored : List ChatMsg) (userMessage : String)
    (outcome : ChatOutcome) : String × List ChatMsg :=
  match outcome with
  | .raised => (FALLBACK_MESSAGE, stored)
  | .returned response =>
    if response = "" then (UNSURE_MESSAGE, stored)
    else
      let s1 := conversation_append stored "user" userMessage
      let s2 := conversation_append s1 "assistant" response
      (response, s2)

/-! ## Bulk profile update (`ConversationalHandler._bulk_update_profile`)

Tool-call argument values arrive as decoded JSON; the source passes string
fields through `str(...)` and numeric fields through `float(...)`.  The
model receives string fields as strings (`none` = key absent or JSON-falsy
for `if v := args.get(...)` guards, which skip empty strings in the body)
and numeric fields as `Option (Option ℚ)` (outer `none` = key absent or
`None`; inner `none` = `float(...)` raised, which the source swallows).
-/

/-- Arguments of an `update_profile` tool call. -/
structure BulkUpdateArgs where
  baby_name : Option String := none
  gender : Option String := none
  birth_weight_kg : Option (Option ℚ) := none
  dob : Option String := none
  allergies : Option String := none
  feeding_type : Option String := none
  preferences : Option String := none
  foods_introduced : Option String := none
  location : Option String := none
  current_weight_kg : Option (Option ℚ) := none
  height_cm : Option (Option ℚ) := none
  deriving Repr, DecidableEq

/-- The `updates` dictionary being built: validated values plus the key
insertion order. -/
structure Updates where
  keys : List String := []
  baby_name : Option (Option String) := none
  gender : Option String := none
  birth_weight_kg : Option ℚ := none
  dob : Option Date := none
  allergies : Option (List String) := none
  feeding_type : Option FeedingType := none
  preferences : Option (List Preference) := none
  foods_introduced : Option (List String) := none
  location : Option (Option String) := none
  current_weight_kg : Option ℚ := none
  height_cm : Option ℚ := none
  deriving Repr, DecidableEq

/-- Order-preserving de-duplication keeping first occurrences, as
`list(dict.fromkeys(...))`. -/
def dedupFirst [DecidableEq α] : List α → List α
  | [] => []
  | a :: l => a :: dedupFirst (l.filter (fun b => b ≠ a))
  termination_by l => l.length
  decreasing_by
    simp only [List.length_cons]
    exact Nat.lt_succ_of_le (List.length_filter_le _ _)

/-- Helper for the dob regex: decimal digit
value. -/
def digitVal (c : Char) : Nat := c.toNat - 48

/-- Four digits followed by a literal dash. -/
def year4Dash : List Char → Option (Nat × List Char)
  | c1 :: c2 :: c3 :: c4 :: c5 :: rest =>
    if c1.isDigit ∧ c2.isDigit ∧ c3.isDigit ∧ c4.isDigit ∧ c5 = '-' then
      some (((digitVal c1 * 10 + digitVal c2) * 10 + digitVal c3) * 10 +
        digitVal c4, rest)
    else none
  | _ => none

/-- One or two digits (greedy, with regex backtracking) followed by a
literal dash. -/
def digitsDash : List Char → Option (Nat × List Char)
  | c1 :: c2 :: rest =>
    if c1.isDigit then
      if c2.isDigit then
        match rest with
        | '-' :: rest2 => some (digitVal c1 * 10 + digitVal c2, rest2)
        | _ => none
      else if c2 = '-' then some (digitVal c1, rest)
      else none
    else none
  | _ => none

/-- One or two digits (greedy), nothing required afterwards. -/
def digitsEnd : List Char → Option Nat
  | c1 :: c2 :: _ =>
    if c1.isDigit then
      if c2.isDigit then some (digitVal c1 * 10 + digitVal c2)
      else some (digitVal c1)
    else none
  | [c1] => if c1.isDigit then some (digitVal c1) else none
  | [] => none

/-- Model of `re.match` with the dob pattern: anchored prefix match,
trailing characters allowed. -/
def matchDobRx (s : String) : Option (Nat × Nat × Nat) :=
  match year4Dash s.data with
  | none => none
  | some (y, rest) =>
    match digitsDash rest with
    | none => none
    | some (mo, rest2) =>
      match digitsEnd rest2 with
      | none => none
      | some d => some (y, mo, d)

/-- Block `if v := args.get("baby_name"): updates["baby_name"] = str(v).strip() or None`. -/
def stepBabyName (args : BulkUpdateArgs) (u : Updates) : Updates :=
  match args.baby_name with
  | some v =>
    if v ≠ "" then
      { u with
        baby_name := some (if pyStrip v = "" then none else some (pyStrip v)),
        keys := u.keys ++ ["baby_name"] }
    else u
  | none => u

/-- The gender synonym block. -/
def stepGender (args : BulkUpdateArgs) (u : Updates) : Updates :=
  match args.gender with
  | some v =>
    if v ≠ "" then
      let g := pyLower v
      if g = "male" ∨ g = "boy" ∨ g = "m" then
        { u with gender := some "male", keys := u.keys ++ ["gender"] }
      else if g = "female" ∨ g = "girl" ∨ g = "f" then
        { u with gender := some "female", keys := u.keys ++ ["gender"] }
      else if g = "other" then
        { u with gender := some "other", keys := u.keys ++ ["gender"] }
      else u
    else u
  | none => u

/-- The birth-weight block: `float(...)` then the range check `0 < w < 10`. -/
def stepBirthWeight (args : BulkUpdateArgs) (u : Updates) : Updates :=
  match args.birth_weight_kg with
  | some (some w) =>
    if 0 < w ∧ w < 10 then
      { u with birth_weight_kg := some w, keys := u.keys ++ ["birth_weight_kg"] }
    else u
  | some none => u
  | none => u

/-- The dob block: regex prefix match, `date(...)` construction
(`ValueError` swallowed) and the not-in-future check. -/
def stepDob (today : Date) (args : BulkUpdateArgs) (u : Updates) : Updates :=
  match args.dob with
  | some v =>
    if v ≠ "" then
      match matchDobRx v with
      | some (y, mo, d) =>
        if Date.isReal ⟨y, mo, d⟩ then
          if Date.ble ⟨y, mo, d⟩ today then
            { u with dob := some ⟨y, mo, d⟩, keys := u.keys ++ ["dob"] }
          else u
        else u
      | none => u
    else u
  | none => u

/-- The allergies block (guarded by key presence, not truthiness):
`"none"` clears the list, otherwise a comma list is parsed. -/
def stepAllergies (args : BulkUpdateArgs) (u : Updates) : Updates :=
  match args.allergies with
  | some v =>
    { u with
      allergies :=
        some (if pyLower (pyStrip v) = "none" then [] else commaList v),
      keys := u.keys ++ ["allergies"] }
  | none => u

/-- The feeding-type synonym block. -/
def stepFeeding (args : BulkUpdateArgs) (u : Updates) : Updates :=
  match args.feeding_type with
  | some v =>
    if v ≠ "" then
      let f := pyLower v
      if f = "breastfed" ∨ f = "breast" ∨ f = "bf" then
        { u with feeding_type := some .breastfed, keys := u.keys ++ ["feeding_type"] }
      else if f = "formula" ∨ f = "formula-fed" then
        { u with feeding_type := some .formula, keys := u.keys ++ ["feeding_type"] }
      else if f = "mixed" ∨ f = "both" then
        { u with feeding_type := some .mixed, keys := u.keys ++ ["feeding_type"] }
      else u
    else u
  | none => u

/-- Separator class of `re.split(r"[,.\s]+", ...)`. -/
def isPrefSep (c : Char) : Bool := c = ',' || c = '.' || c.isWhitespace

/-- Maximal non-separator runs of `re.split(r"[,.\s]+", s)` (the empty
edge tokens the regex split can produce match no synonym and are
dropped). -/
def sepTokensAux (cur : List Char) : List Char → List String
  | [] => if cur.isEmpty then [] else [cur.reverse.asString]
  | c :: rest =>
    if isPrefSep c then
      if cur.isEmpty then sepTokensAux [] rest
      else cur.reverse.asString :: sepTokensAux [] rest
    else sepTokensAux (c :: cur) rest

/-- Tokens of the preferences argument. -/
def sepTokens (s : String) : List String := sepTokensAux [] s.data

/-- The preferences block: synonym mapping then order-preserving
de-duplication; applied only when at least one token matched. -/
def stepPreferences (args : BulkUpdateArgs) (u : Updates) : Updates :=
  match args.preferences with
  | some v =>
    if v ≠ "" then
      let prefs := (sepTokens (pyLower v)).filterMap (fun p =>
        if p = "veg" ∨ p = "vegetarian" then some Preference.veg
        else if p = "egg" ∨ p = "eggs" then some Preference.egg
        else if p = "non_veg" ∨ p = "nonveg" ∨ p = "non-veg" then
          some Preference.non_veg
        else none)
      if !prefs.isEmpty then
        { u with preferences := some (dedupFirst prefs),
                 keys := u.keys ++ ["preferences"] }
      else u
    else u
  | none => u

/-- The foods-introduced block: comma list merged into the existing list
with order-preserving de-duplication. -/
def stepFoods (profile : BabyProfile) (args : BulkUpdateArgs) (u : Updates) :
    Updates :=
  match args.foods_introduced with
  | some v =>
    if v ≠ "" then
      let items := commaList v
      if !items.isEmpty then
        { u with
          foods_introduced := some (dedupFirst (profile.foods_introduced ++ items)),
          keys := u.keys ++ ["foods_introduced"] }
      else u
    else u
  | none => u

/-- Block `if v := args.get("location"): updates["location"] = str(v).strip() or None`. -/
def stepLocation (args : BulkUpdateArgs) (u : Updates) : Updates :=
  match args.location with
  | some v =>
    if v ≠ "" then
      { u with
        location := some (if pyStrip v = "" then none else some (pyStrip v)),
        keys := u.keys ++ ["location"] }
    else u
  | none => u

/-- The current-weight block: range check `0 < w < 50`. -/
def stepCurrentWeight (args : BulkUpdateArgs) (u : Updates) : Updates :=
  match args.current_weight_kg with
  | some (some w) =>
    if 0 < w ∧ w < 50 then
      { u with current_weight_kg := some w,
               keys := u.keys ++ ["current_weight_kg"] }
    else u
  | some none => u
  | none => u

/-- The height block: range check `0 < h < 150`. -/
def stepHeight (args : BulkUpdateArgs) (u : Updates) : Updates :=
  match args.height_cm with
  | some (some h) =>
    if 0 < h ∧ h < 150 then
      { u with height_cm := some h, keys := u.keys ++ ["height_cm"] }
    else u
  | some none => u
  | none => u

/-- Model of `profile.model_copy(update=updates)`. -/
def applyUpdates (profile : BabyProfile) (u : Updates) : BabyProfile :=
  { profile with
    baby_name := u.baby_name.getD profile.baby_name,
    gender := match u.gender with
      | some g => some g
      | none => profile.gender,
    birth_weight_kg := match u.birth_weight_kg with
      | some w => some w
      | none => profile.birth_weight_kg,
    dob := u.dob.getD profile.dob,
    allergies := u.allergies.getD profile.allergies,
    feeding_type := u.feeding_type.getD profile.feeding_type,
    preferences := u.preferences.getD profile.preferences,
    foods_introduced := u.foods_introduced.getD profile.foods_introduced,
    location := u.location.getD profile.location,
    current_weight_kg := match u.current_weight_kg with
      | some w => some w
      | none => profile.current_weight_kg,
    height_cm := match u.height_cm with
      | some h => some h
      | none => profile.height_cm }

/-- The no-valid-fields reply. -/
def NO_VALID_FIELDS_MSG : String :=
  "No valid fields to update. Check the values provided."

/-- Result of `_bulk_update_profile` on an existing profile: the profile
afterwards, the applied field names, whether `save` was called, and the
reply string. -/
structure BulkUpdateResult where
  profile : BabyProfile
  applied : List String
  saved : Bool
  message : String
  deriving Repr, DecidableEq

/-- Model of `ConversationalHandler._bulk_update_profile` on an existing profile:
run the field blocks in source order, then save and confirm only if the
updates dictionary is non-empty. -/
def bulk_update_profile (today : Date) (profile : BabyProfile)
    (args : BulkUpdateArgs) : BulkUpdateResult :=
  let u :=
    stepHeight args (stepCurrentWeight args (stepLocation args
      (stepFoods profile args (stepPreferences args (stepFeeding args
        (stepAllergies args (stepDob today args (stepBirthWeight args
          (stepGender args (stepBabyName args {}))))))))))
  if u.keys.isEmpty then
    { profile := profile, applied := [], saved := false,
      message := NO_VALID_FIELDS_MSG }
  else
    { profile := applyUpdates profile u, applied := u.keys, saved := true,
      message := "Profile updated: " ++ String.intercalate ", " u.keys ++
        ". Send PROFILE to view." }

/-! ### Specification-side description of the bulk update

Each `upd*` function computes the validated value for one field from that
argument of that field alone (plus, for `foods_introduced`, the stored
profile), following the specification text on independent per-field validation.  The
theorems below equate `bulk_update_profile` with this compositional
description.
-/

/-- Spec-side validated baby-name value. -/
def updBabyName (args : BulkUpdateArgs) : Option (Option String) :=
  args.baby_name.bind (fun v =>
    if v ≠ "" then some (if pyStrip v = "" then none else some (pyStrip v))
    else none)

/-- Spec-side validated gender value. -/
def updGender (args : BulkUpdateArgs) : Option String :=
  args.gender.bind (fun v =>
    if v ≠ "" then
      let g := pyLower v
      if g = "male" ∨ g = "boy" ∨ g = "m" then some "male"
      else if g = "female" ∨ g = "girl" ∨ g = "f" then some "female"
      else if g = "other" then some "other"
      else none
    else none)

/-- Spec-side validated birth weight. -/
def updBirthWeight (args : BulkUpdateArgs) : Option ℚ :=
  args.birth_weight_kg.bind (fun fv =>
    fv.bind (fun w => if 0 < w ∧ w < 10 then some w else none))

/-- Spec-side validated date of birth. -/
def updDob (today : Date) (args : BulkUpdateArgs) : Option Date :=
  args.dob.bind (fun v =>
    if v ≠ "" then
      (matchDobRx v).bind (fun t =>
        if Date.isReal ⟨t.1, t.2.1, t.2.2⟩ then
          if Date.ble ⟨t.1, t.2.1, t.2.2⟩ today then some ⟨t.1, t.2.1, t.2.2⟩
          else none
        else none)
    else none)

/-- Spec-side validated allergies list. -/
def updAllergies (args : BulkUpdateArgs) : Option (List String) :=
  args.allergies.map (fun v =>
    if pyLower (pyStrip v) = "none" then [] else commaList v)

/-- Spec-side validated feeding type. -/
def updFeeding (args : BulkUpdateArgs) : Option FeedingType :=
  args.feeding_type.bind (fun v =>
    if v ≠ "" then
      let f := pyLower v
      if f = "breastfed" ∨ f = "breast" ∨ f = "bf" then some .breastfed
      else if f = "formula" ∨ f = "formula-fed" then some .formula
      else if f = "mixed" ∨ f = "both" then some .mixed
      else none
    else none)

/-- Spec-side validated preferences list. -/
def updPreferences (args : BulkUpdateArgs) : Option (List Preference) :=
  args.preferences.bind (fun v =>
    if v ≠ "" then
      let prefs := (sepTokens (pyLower v)).filterMap (fun p =>
        if p = "veg" ∨ p = "vegetarian" then some Preference.veg
        else if p = "egg" ∨ p = "eggs" then some Preference.egg
        else if p = "non_veg" ∨ p = "nonveg" ∨ p = "non-veg" then
          some Preference.non_veg
        else none)
      if !prefs.isEmpty then some (dedupFirst prefs) else none
    else none)

/-- Spec-side merged foods-introduced list. -/
def updFoods (profile : BabyProfile) (args : BulkUpdateArgs) :
    Option (List String) :=
  args.foods_introduced.bind (fun v =>
    if v ≠ "" then
      let items := commaList v
      if !items.isEmpty then
        some (dedupFirst (profile.foods_introduced ++ items))
      else none
    else none)

/-- Spec-side validated location value. -/
def updLocation (args : BulkUpdateArgs) : Option (Option String) :=
  args.location.bind (fun v =>
    if v ≠ "" then some (if pyStrip v = "" then none else some (pyStrip v))
    else none)

/-- Spec-side validated current weight. -/
def updCurrentWeight (args : BulkUpdateArgs) : Option ℚ :=
  args.current_weight_kg.bind (fun fv =>
    fv.bind (fun w => if 0 < w ∧ w < 50 then some w else none))

/-- Spec-side validated height. -/
def updHeight (args : BulkUpdateArgs) : Option ℚ :=
  args.height_cm.bind (fun fv =>
    fv.bind (fun h => if 0 < h ∧ h < 150 then some h else none))

/-- Spec-side applied-field-name list, in the fixed source block order;
each entry is present exactly when the independent validation of that
field succeeds. -/
def appliedFields (today : Date) (profile : BabyProfile)
    (args : BulkUpdateArgs) : List String :=
  (if (updBabyName args).isSome then ["baby_name"] else []) ++
  (if (updGender args).isSome then ["gender"] else []) ++
  (if (updBirthWeight args).isSome then ["birth_weight_kg"] else []) ++
  (if (updDob today args).isSome then ["dob"] else []) ++
  (if (updAllergies args).isSome then ["allergies"] else []) ++
  (if (updFeeding args).isSome then ["feeding_type"] else []) ++
  (if (updPreferences args).isSome then ["preferences"] else []) ++
  (if (updFoods profile args).isSome then ["foods_introduced"] else []) ++
  (if (updLocation args).isSome then ["location"] else []) ++
  (if (updCurrentWeight args).isSome then ["current_weight_kg"] else []) ++
  (if (updHeight args).isSome then ["height_cm"] else [])

/-- Spec-side updates dictionary: every field from its own validator. -/
def specUpdates (today : Date) (profile : BabyProfile)
    (args : BulkUpdateArgs) : Updates :=
  { keys := appliedFields today profile args,
    baby_name := updBabyName args,
    gender := updGender args,
    birth_weight_kg := updBirthWeight args,
    dob := updDob today args,
    allergies := updAllergies args,
    feeding_type := updFeeding args,
    preferences := updPreferences args,
    foods_introduced := updFoods profile args,
    location := updLocation args,
    current_weight_kg := updCurrentWeight args,
    height_cm := updHeight args }

/-! ## Concrete evaluation data -/

/-- A fixed evaluation date. -/
def sampleToday : Date := ⟨2024, 7, 15⟩

/-- A six-month-old profile (dob 2024-01-15). -/
def profile6m : BabyProfile := { baby_id := "baby-1", dob := ⟨2024, 1, 15⟩ }

/-- A thirty-month-old profile (dob 2022-01-01). -/
def profile30m : BabyProfile := { baby_id := "baby-2", dob := ⟨2022, 1, 1⟩ }

/-- A sixty-six-month-old profile (dob 2019-01-01). -/
def profile65m : BabyProfile := { baby_id := "baby-3", dob := ⟨2019, 1, 1⟩ }

/-- A meal whose texture is outside the default allowed set. -/
def mealCrunchy : Meal :=
  { time := "07:00-09:00", name := "breakfast", item := "ragi porridge",
    quantity := "2-3 spoons", texture := "crunchy" }

/-- A meal whose item mentions salt. -/
def mealSalt : Meal :=
  { time := "07:00-09:00", name := "breakfast", item := "rice with salt",
    quantity := "2-3 spoons", texture := "family_food" }

/-- A compliant meal. -/
def mealOk : Meal :=
  { time := "12:00-14:00", name := "lunch", item := "dal khichdi",
    quantity := "2-3 spoons", texture := "Family_Food" }

/-- A whole-nut meal. -/
def mealNut : Meal :=
  { time := "16:00-18:00", name := "evening", item := "whole almonds mix",
    quantity := "2-3 spoons", texture := "varied" }

/-- A profile with one introduced food, for the bulk-update evaluation. -/
def profileFoods : BabyProfile :=
  { baby_id := "baby-4", dob := ⟨2024, 1, 15⟩, foods_introduced := ["rice"] }

/-- Bulk-update arguments mixing valid fields (gender synonym, foods to
merge) with invalid ones (unparseable birth weight, out-of-range
height). -/
def argsMixed : BulkUpdateArgs :=
  { gender := some "Boy",
    birth_weight_kg := some none,
    foods_introduced := some "banana, rice",
    height_cm := some (some 200) }

/-! # Theorems -/

/-! ## Helper lemmas about the rule-engine loop -/

theorem filterLoop_ok_sublist (al : List String) (ns nh nw : Bool)
    (ts : List String) :
    ∀ (l out : List Meal), filterLoop al ns nh nw ts l = .ok out →
      out.Sublist l := by
  intro l
  induction l with
  | nil =>
    intro out h
    simp only [filterLoop] at h
    cases h
    exact List.Sublist.slnil
  | cons hd tl ih =>
    intro out h
    simp only [filterLoop] at h
    split at h
    · exact List.Sublist.cons _ (ih out h)
    · split at h
      · exact List.Sublist.cons _ (ih out h)
      · split at h
        · exact List.Sublist.cons _ (ih out h)
        · split at h
          · exact List.Sublist.cons _ (ih out h)
          · split at h
            · simp at h
            · split at h
              · simp at h
              · next out2 heq =>
                cases h
                exact List.Sublist.cons₂ _ (ih out2 heq)

theorem filterLoop_ok_guards (al : List String) (ns nh nw : Bool)
    (ts : List String) :
    ∀ (l out : List Meal), filterLoop al ns nh nw ts l = .ok out →
      ∀ m ∈ out,
        (ns = true →
          FORBIDDEN_ITEMS_BEFORE_12M.any
            (fun f => containsSub (pyLower m.item) f) = false)
        ∧ (nw = true →
          FORBIDDEN_WHOLE_NUTS.any
            (fun n => containsSub (pyLower m.item) n) = false) := by
  intro l
  induction l with
  | nil =>
    intro out h m hm
    simp only [filterLoop] at h
    cases h
    cases hm
  | cons hd tl ih =>
    intro out h m hm
    simp only [filterLoop] at h
    split at h
    · exact ih out h m hm
    · split at h
      · exact ih out h m hm
      · next hsalt =>
        split at h
        · exact ih out h m hm
        · split at h
          · exact ih out h m hm
          · next hnut =>
            split at h
            · simp at h
            · split at h
              · simp at h
              · next out2 heq =>
                cases h
                rcases List.mem_cons.mp hm with rfl | hm2
                · constructor
                  · intro hns
                    rw [hns] at hsalt
                    simpa using hsalt
                  · intro hnw
                    rw [hnw] at hnut
                    simpa using hnut
                · exact ih out2 heq m hm2

/-! ## C10: age_in_months -/

/-- C10: `age_in_months` is monotone non-decreasing as the reference
date advances (over real calendar dates), never negative, and evaluates to
5 resp. 6 months for dob 2024-01-15 at references 2024-07-14 and
2024-07-15.  Determinism is immediate: the model is a pure function of
`(dob, reference)`. -/
theorem age_in_months_props :
    (∀ dob r1 r2 : Date, Date.isReal r1 = true → Date.isReal r2 = true →
      Date.ble r1 r2 = true → age_in_months dob r1 ≤ age_in_months dob r2)
    ∧ (∀ dob ref : Date, 0 ≤ age_in_months dob ref)
    ∧ age_in_months ⟨2024, 1, 15⟩ ⟨2024, 7, 14⟩ = 5
    ∧ age_in_months ⟨2024, 1, 15⟩ ⟨2024, 7, 15⟩ = 6 := by
  refine ⟨?_, ?_, rfl, rfl⟩
  · intro dob r1 r2 h1 h2 hle
    simp only [Date.isReal, decide_eq_true_eq] at h1 h2
    simp only [Date.ble, decide_eq_true_eq] at hle
    obtain ⟨-, -, hm1lo, hm1hi, -, -⟩ := h1
    obtain ⟨-, -, hm2lo, hm2hi, -, -⟩ := h2
    simp only [age_in_months]
    apply max_le_max (le_refl (0 : ℤ))
    rcases hle with hy | ⟨hy, hm | ⟨hm, hd⟩⟩ <;> split_ifs <;> omega
  · intro dob ref
    simp only [age_in_months]
    exact le_max_left 0 _

/-- Witness for C10 at concrete dates. -/
theorem age_in_months_props_witness :
    age_in_months ⟨2024, 1, 15⟩ ⟨2024, 7, 14⟩ ≤
      age_in_months ⟨2024, 1, 15⟩ ⟨2024, 7, 15⟩
    ∧ 0 ≤ age_in_months ⟨2024, 1, 15⟩ ⟨2023, 1, 1⟩ :=
  ⟨age_in_months_props.1 ⟨2024, 1, 15⟩ ⟨2024, 7, 14⟩ ⟨2024, 7, 15⟩
    (by decide) (by decide) (by decide),
   age_in_months_props.2.1 ⟨2024, 1, 15⟩ ⟨2023, 1, 1⟩⟩

/-! ## C9: conversation store capacity -/

/-- C9: `ConversationStore.get` returns at most `MAX_MESSAGES = 10`
entries, and appending 12 messages to an empty history leaves exactly the
last 10, oldest-first. -/
theorem conversation_store_capacity :
    (∀ stored : List ChatMsg,
      (conversation_get stored).length ≤ MAX_MESSAGES)
    ∧ ((List.range 12).map (fun i => ChatMsg.mk "user" (toString i))).foldl
        (fun st m => conversation_append st m.role m.content) [] =
      ((List.range 12).drop 2).map (fun i => ChatMsg.mk "user" (toString i)) := by
  constructor
  · intro stored
    simp only [conversation_get, takeLast, List.length_drop]
    omega
  · rfl

/-! ## C7: handler turn discipline -/

/-- C7: a raised LLM/tool call yields the fixed fallback with history
untouched; an empty response yields the unsure reply with history
untouched; a non-empty response appends exactly the user message then the
assistant text to the bounded history and is returned. -/
theorem handle_history_discipline :
    ∀ (stored : List ChatMsg) (userMessage : String),
      handle stored userMessage .raised = (FALLBACK_MESSAGE, stored)
      ∧ handle stored userMessage (.returned "") = (UNSURE_MESSAGE, stored)
      ∧ ∀ response : String, response ≠ "" →
          handle stored userMessage (.returned response) =
            (response,
              conversation_append
                (conversation_append stored "user" userMessage)
                "assistant" response) := by
  intro stored userMessage
  refine ⟨rfl, rfl, ?_⟩
  intro response hr
  simp [handle, hr]

/-- Witness for C7 on a concrete successful turn. -/
theorem handle_history_discipline_witness :
    handle [] "hi" (.returned "hello") =
      ("hello", [⟨"user", "hi"⟩, ⟨"assistant", "hello"⟩]) := by
  rw [(handle_history_discipline [] "hi").2.2 "hello" (by decide)]
  rfl

/-! ## C1: the texture-override path raises -/

/-- C1: contrary to the claim, a surviving meal whose texture is not in
the allowed set is never rewritten: the source indexes `allowed_textures[0]`
on a Python `set`, so the call raises `TypeError` instead of returning the
meal with an adjusted texture. -/
theorem texture_override_raises :
    validate_and_filter_meals {} sampleToday profile6m [mealCrunchy] =
      .error (.typeError "set object is not subscriptable") := rfl

/-! ## C4: the filter yields an order-preserving subsequence -/

/-- C4: whenever `validate_and_filter_meals` completes normally, its
output is a subsequence of the input (distinct originating meals at
strictly increasing positions, each output meal equal to its input meal),
so in particular its length is at most the input length. -/
theorem filter_output_subsequence (rules : FoodRules) (today : Date)
    (profile : BabyProfile) (meals out : List Meal)
    (h : validate_and_filter_meals rules today profile meals = .ok out) :
    out.Sublist meals ∧ out.length ≤ meals.length := by
  simp only [validate_and_filter_meals] at h
  have hs := filterLoop_ok_sublist _ _ _ _ _ meals out h
  exact ⟨hs, hs.length_le⟩

/-- Witness for C4 on a concrete filtered list. -/
theorem filter_output_subsequence_witness :
    ([mealOk] : List Meal).Sublist [mealSalt, mealOk]
    ∧ ([mealOk] : List Meal).length ≤ [mealSalt, mealOk].length :=
  filter_output_subsequence {} sampleToday profile6m [mealSalt, mealOk]
    [mealOk] rfl

/-! ## C2: forbidden-ingredient and whole-nut safety drops -/

/-- C2: below the configured no-salt-sugar threshold (default 12), no
meal whose item contains a forbidden term survives; below the configured
whole-nut threshold (default 60), no whole-nut meal survives; and with the
default safety configuration at age ≥ 60 months the whole-nut rule does
not filter: an allergen-free whole-nut meal with an allowed texture passes
through unchanged. -/
theorem safety_drop_rules :
    (∀ (rules : FoodRules) (today : Date) (profile : BabyProfile)
        (meals out : List Meal),
      validate_and_filter_meals rules today profile meals = .ok out →
      (age_in_months profile.dob today <
          (rules.safety.bind SafetyRules.no_salt_sugar_until_months).getD 12 →
        ∀ m : Meal,
          FORBIDDEN_ITEMS_BEFORE_12M.any
            (fun f => containsSub (pyLower m.item) f) = true → m ∉ out)
      ∧ (age_in_months profile.dob today <
          (rules.safety.bind SafetyRules.no_whole_nuts_until_months).getD 60 →
        ∀ m : Meal,
          FORBIDDEN_WHOLE_NUTS.any
            (fun n => containsSub (pyLower m.item) n) = true → m ∉ out))
    ∧ (∀ (rules : FoodRules) (today : Date) (profile : BabyProfile) (m : Meal),
      rules.safety = none →
      60 ≤ age_in_months profile.dob today →
      profile.allergies = [] →
      (((allowed_textures rules (age_in_months profile.dob today)).map
          pyLower).contains (pyLower m.texture) = true
        ∨ (allowed_textures rules
            (age_in_months profile.dob today)).isEmpty = true) →
      validate_and_filter_meals rules today profile [m] = .ok [m]) := by
  constructor
  · intro rules today profile meals out hvalid
    simp only [validate_and_filter_meals] at hvalid
    constructor
    · intro hage m hany hmem
      have hg := (filterLoop_ok_guards _ _ _ _ _ meals out hvalid m hmem).1
        (decide_eq_true hage)
      rw [hany] at hg
      exact Bool.noConfusion hg
    · intro hage m hany hmem
      have hg := (filterLoop_ok_guards _ _ _ _ _ meals out hvalid m hmem).2
        (decide_eq_true hage)
      rw [hany] at hg
      exact Bool.noConfusion hg
  · intro rules today profile m hsafe hage hallerg htex
    have d12 : decide (age_in_months profile.dob today < (12 : ℤ)) = false :=
      decide_eq_false (by omega)
    have d60 : decide (age_in_months profile.dob today < (60 : ℤ)) = false :=
      decide_eq_false (by omega)
    rcases htex with hc | he
    · obtain ⟨x, hx, heq⟩ := List.mem_map.mp (by simpa using hc)
      simp [validate_and_filter_meals, filterLoop, hsafe, hallerg, d12, d60]
      intro _
      exact ⟨x, hx, heq⟩
    · have he' : allowed_textures rules (age_in_months profile.dob today) = [] :=
        List.isEmpty_iff.mp he
      simp [validate_and_filter_meals, filterLoop, hsafe, hallerg, d12, d60, he']

/-- Witness for C2: a salt meal at 6 months is absent from the output, a
whole-nut meal at 30 months is absent, and the same whole-nut meal at 66
months passes through unchanged. -/
theorem safety_drop_rules_witness :
    mealSalt ∉ ([mealOk] : List Meal)
    ∧ mealNut ∉ ([] : List Meal)
    ∧ validate_and_filter_meals {} sampleToday profile65m [mealNut] =
        .ok [mealNut] :=
  ⟨(safety_drop_rules.1 {} sampleToday profile6m [mealSalt, mealOk]
      [mealOk] rfl).1 (by decide) mealSalt rfl,
   (safety_drop_rules.1 {} sampleToday profile30m [mealNut] [] rfl).2
      (by decide) mealNut rfl,
   safety_drop_rules.2 {} sampleToday profile65m mealNut rfl (by decide)
      rfl (Or.inl rfl)⟩

/-! ## C3: meal-plan parsing robustness -/

/-- C3: contrary to the never-raises claim, a successfully decoded
response whose top-level JSON value is not an object (here the valid JSON
text `[]`) makes `_parse_meal_plan_response` evaluate
`data.get("meals", [])` on a list, raising `AttributeError`, which
propagates out of `generate_meal_plan`.  (A decode failure does return an
empty meal list.) -/
theorem parse_nonobject_raises :
    parse_meal_plan_response {} sampleToday profile6m (some (.arr [])) =
      .error (.attributeError "object has no attribute get")
    ∧ generate_meal_plan {} sampleToday profile6m (some (.arr [])) =
      .error (.attributeError "object has no attribute get")
    ∧ parse_meal_plan_response {} sampleToday profile6m none = .ok [] :=
  ⟨rfl, rfl, rfl⟩

/-! ## C5: the LLM-facing tool catalog -/

/-- C5: contrary to the claim, `TOOLS_DEFINITION` contains exactly two
entries, `get_meal_plan` and `get_story`, neither carrying a parameters
schema; the four-tool catalog with argument shapes stated by the spec
(and advertised by the system prompt of the handler and the `execute_tool`
dispatch) is not what is passed to the LLM. -/
theorem tool_catalog_is_two_tools :
    TOOLS_DEFINITION.map (fun t => t.function.name) =
      ["get_meal_plan", "get_story"]
    ∧ TOOLS_DEFINITION.map (fun t => t.function.parameters) = [none, none]
    ∧ decide (TOOLS_DEFINITION.map (fun t => t.function.name) =
        specToolCatalog.map Prod.fst) = false
    ∧ (specToolCatalog.map Prod.fst).length = 4 := ⟨rfl, rfl, rfl, rfl⟩

/-! ## C6: get_meal_plan tool execution without a profile -/

/-- C6: contrary to the claim, the `get_meal_plan` branch of the handler
always raises: it calls `get_today_plan(phone, constraints=...)`, but the
method signature has no `constraints` parameter, so Python raises
`TypeError` at the call site — for every argument combination and even
though the method body itself would have returned the "send START first"
message for a missing profile. -/
theorem get_meal_plan_tool_raises :
    (∀ (args : GetMealPlanArgs) (profileExists : Bool)
        (generation : Except PyErr String) (disclaimer : String),
      execute_tool_get_meal_plan args profileExists generation disclaimer =
        .error (.typeError "get_today_plan got an unexpected keyword argument"))
    ∧ get_today_plan false (.ok "") "" = NO_PROFILE_MESSAGE := by
  exact ⟨fun args pe g d => rfl, rfl⟩

/-! ## C8: bulk profile update

Each `step*_eq` lemma characterises one source if-block as an independent
per-field validator; `bulk_steps_eq` composes them.
-/

theorem mem_dedupFirst [DecidableEq α] :
    ∀ (l : List α) (a : α), a ∈ l → a ∈ dedupFirst l := by
  intro l
  induction l using dedupFirst.induct with
  | case1 => intro a h; cases h
  | case2 hd tl ih =>
    intro a h
    rw [dedupFirst]
    rcases List.mem_cons.mp h with rfl | h2
    · exact List.mem_cons_self _ _
    · by_cases he : a = hd
      · subst he; exact List.mem_cons_self _ _
      · exact List.mem_cons_of_mem _
          (ih a (List.mem_filter.mpr ⟨h2, by simp [he]⟩))

theorem stepBabyName_eq (args : BulkUpdateArgs) (u : Updates) :
    stepBabyName args u =
      { u with baby_name := (updBabyName args).or u.baby_name,
               keys := u.keys ++
                 (if (updBabyName args).isSome then ["baby_name"] else []) } := by
  unfold stepBabyName updBabyName
  cases args.baby_name with
  | none => simp
  | some v =>
    by_cases hv : v = ""
    · simp [hv]
    · simp [hv]

theorem stepGender_eq (args : BulkUpdateArgs) (u : Updates) :
    stepGender args u =
      { u with gender := (updGender args).or u.gender,
               keys := u.keys ++
                 (if (updGender args).isSome then ["gender"] else []) } := by
  unfold stepGender updGender
  cases args.gender with
  | none => simp
  | some v =>
    simp only [Option.some_bind]
    split_ifs <;> simp_all

theorem stepBirthWeight_eq (args : BulkUpdateArgs) (u : Updates) :
    stepBirthWeight args u =
      { u with birth_weight_kg := (updBirthWeight args).or u.birth_weight_kg,
               keys := u.keys ++
                 (if (updBirthWeight args).isSome then ["birth_weight_kg"]
                  else []) } := by
  unfold stepBirthWeight updBirthWeight
  cases args.birth_weight_kg with
  | none => simp
  | some fv =>
    cases fv with
    | none => simp
    | some w =>
      simp only [Option.some_bind]
      split_ifs <;> simp_all

theorem stepDob_eq (today : Date) (args : BulkUpdateArgs) (u : Updates) :
    stepDob today args u =
      { u with dob := (updDob today args).or u.dob,
               keys := u.keys ++
                 (if (updDob today args).isSome then ["dob"] else []) } := by
  unfold stepDob updDob
  cases args.dob with
  | none => simp
  | some v =>
    simp only [Option.some_bind]
    by_cases h1 : v = ""
    · simp [h1]
    · simp only [ne_eq, h1, not_false_eq_true, if_true, ite_true]
      cases hm : matchDobRx v with
      | none => simp [hm]
      | some t =>
        obtain ⟨y, mo, d⟩ := t
        simp only [hm]
        split_ifs <;> simp_all

theorem stepAllergies_eq (args : BulkUpdateArgs) (u : Updates) :
    stepAllergies args u =
      { u with allergies := (updAllergies args).or u.allergies,
               keys := u.keys ++
                 (if (updAllergies args).isSome then ["allergies"] else []) } := by
  unfold stepAllergies updAllergies
  cases args.allergies with
  | none => simp
  | some v => simp

theorem stepFeeding_eq (args : BulkUpdateArgs) (u : Updates) :
    stepFeeding args u =
      { u with feeding_type := (updFeeding args).or u.feeding_type,
               keys := u.keys ++
                 (if (updFeeding args).isSome then ["feeding_type"] else []) } := by
  unfold stepFeeding updFeeding
  cases args.feeding_type with
  | none => simp
  | some v =>
    simp only [Option.some_bind]
    split_ifs <;> simp_all

theorem stepPreferences_eq (args : BulkUpdateArgs) (u : Updates) :
    stepPreferences args u =
      { u with preferences := (updPreferences args).or u.preferences,
               keys := u.keys ++
                 (if (updPreferences args).isSome then ["preferences"] else []) } := by
  unfold stepPreferences updPreferences
  cases args.preferences with
  | none => simp
  | some v =>
    simp only [Option.some_bind]
    split_ifs <;> simp_all

theorem stepFoods_eq (profile : BabyProfile) (args : BulkUpdateArgs)
    (u : Updates) :
    stepFoods profile args u =
      { u with foods_introduced :=
                 (updFoods profile args).or u.foods_introduced,
               keys := u.keys ++
                 (if (updFoods profile args).isSome then ["foods_introduced"]
                  else []) } := by
  unfold stepFoods updFoods
  cases args.foods_introduced with
  | none => simp
  | some v =>
    simp only [Option.some_bind]
    split_ifs <;> simp_all

theorem stepLocation_eq (args : BulkUpdateArgs) (u : Updates) :
    stepLocation args u =
      { u with location := (updLocation args).or u.location,
               keys := u.keys ++
                 (if (updLocation args).isSome then ["location"] else []) } := by
  unfold stepLocation updLocation
  cases args.location with
  | none => simp
  | some v =>
    by_cases hv : v = ""
    · simp [hv]
    · simp [hv]

theorem stepCurrentWeight_eq (args : BulkUpdateArgs) (u : Updates) :
    stepCurrentWeight args u =
      { u with current_weight_kg :=
                 (updCurrentWeight args).or u.current_weight_kg,
               keys := u.keys ++
                 (if (updCurrentWeight args).isSome then ["current_weight_kg"]
                  else []) } := by
  unfold stepCurrentWeight updCurrentWeight
  cases args.current_weight_kg with
  | none => simp
  | some fv =>
    cases fv with
    | none => simp
    | some w =>
      simp only [Option.some_bind]
      split_ifs <;> simp_all

theorem stepHeight_eq (args : BulkUpdateArgs) (u : Updates) :
    stepHeight args u =
      { u with height_cm := (updHeight args).or u.height_cm,
               keys := u.keys ++
                 (if (updHeight args).isSome then ["height_cm"] else []) } := by
  unfold stepHeight updHeight
  cases args.height_cm with
  | none => simp
  | some fv =>
    cases fv with
    | none => simp
    | some h =>
      simp only [Option.some_bind]
      split_ifs <;> simp_all

theorem bulk_steps_eq (today : Date) (profile : BabyProfile)
    (args : BulkUpdateArgs) :
    stepHeight args (stepCurrentWeight args (stepLocation args
      (stepFoods profile args (stepPreferences args (stepFeeding args
        (stepAllergies args (stepDob today args (stepBirthWeight args
          (stepGender args (stepBabyName args {}))))))))))
      = specUpdates today profile args := by
  rw [stepBabyName_eq, stepGender_eq, stepBirthWeight_eq, stepDob_eq,
    stepAllergies_eq, stepFeeding_eq, stepPreferences_eq, stepFoods_eq,
    stepLocation_eq, stepCurrentWeight_eq, stepHeight_eq]
  simp [specUpdates, appliedFields]

/-- C8: `_bulk_update_profile` equals the compositional description in
which every field is validated independently by its own `upd*` function:
the applied-field list is exactly the fields whose independent validation
succeeded (in the fixed block order), the profile is saved exactly when
that list is non-empty, the confirmation message lists exactly those
fields, the resulting profile applies exactly the validated values, and
existing foods-introduced entries are never lost (merge, not replace). -/
theorem bulk_update_profile_spec (today : Date) (profile : BabyProfile)
    (args : BulkUpdateArgs) :
    (bulk_update_profile today profile args).applied =
      appliedFields today profile args
    ∧ (bulk_update_profile today profile args).saved =
      !(appliedFields today profile args).isEmpty
    ∧ (bulk_update_profile today profile args).message =
      (if (appliedFields today profile args).isEmpty then NO_VALID_FIELDS_MSG
       else "Profile updated: " ++
         String.intercalate ", " (appliedFields today profile args) ++
         ". Send PROFILE to view.")
    ∧ (bulk_update_profile today profile args).profile =
      (if (appliedFields today profile args).isEmpty then profile
       else applyUpdates profile (specUpdates today profile args))
    ∧ ∀ f ∈ profile.foods_introduced,
        f ∈ (bulk_update_profile today profile args).profile.foods_introduced := by
  have hb : bulk_update_profile today profile args =
      (if (specUpdates today profile args).keys.isEmpty then
        { profile := profile, applied := [], saved := false,
          message := NO_VALID_FIELDS_MSG }
       else
        { profile := applyUpdates profile (specUpdates today profile args),
          applied := (specUpdates today profile args).keys, saved := true,
          message := "Profile updated: " ++
            String.intercalate ", " (specUpdates today profile args).keys ++
            ". Send PROFILE to view." }) := by
    rw [bulk_update_profile, bulk_steps_eq]
  have hkeys : (specUpdates today profile args).keys =
      appliedFields today profile args := rfl
  have hfoods : (specUpdates today profile args).foods_introduced =
      updFoods profile args := rfl
  have hmerge : ∀ merged, updFoods profile args = some merged →
      ∀ f ∈ profile.foods_introduced, f ∈ merged := by
    unfold updFoods
    cases args.foods_introduced with
    | none => intro merged h; cases h
    | some v =>
      simp only [Option.some_bind]
      split_ifs with h1 h2
      · intro merged h f hf
        cases h
        exact mem_dedupFirst _ f (List.mem_append_left _ hf)
      · intro merged h; cases h
      · intro merged h; cases h
  rw [hb]
  cases hemp : (appliedFields today profile args).isEmpty with
  | true =>
    have hnil : appliedFields today profile args = [] :=
      List.isEmpty_iff.mp hemp
    refine ⟨?_, ?_, ?_, ?_, ?_⟩
    · simp [hkeys, hemp, hnil]
    · simp [hkeys, hemp]
    · simp [hkeys, hemp]
    · simp [hkeys, hemp]
    · simp only [hkeys, hemp, ite_true]
      intro f hf
      exact hf
  | false =>
    refine ⟨?_, ?_, ?_, ?_, ?_⟩
    · simp [hkeys, hemp]
    · simp [hkeys, hemp]
    · simp [hkeys, hemp]
    · simp [hkeys, hemp]
    · simp only [hkeys, hemp, Bool.false_eq_true, ite_false]
      intro f hf
      simp only [applyUpdates, hfoods]
      cases hfo : updFoods profile args with
      | none => simpa using hf
      | some merged =>
        simp only [Option.getD_some]
        exact hmerge merged hfo f hf

/-- Witness for C8 on a concrete mixed update: the gender synonym and the
foods merge are applied, the unparseable birth weight and out-of-range
height are silently skipped, the confirmation lists exactly the applied
fields, and the previously introduced food is preserved. -/
theorem bulk_update_profile_spec_witness :
    (bulk_update_profile sampleToday profileFoods argsMixed).applied =
      ["gender", "foods_introduced"]
    ∧ (bulk_update_profile sampleToday profileFoods argsMixed).saved = true
    ∧ (bulk_update_profile sampleToday profileFoods argsMixed).message =
      "Profile updated: gender, foods_introduced. Send PROFILE to view."
    ∧ "rice" ∈
        (bulk_update_profile sampleToday profileFoods
          argsMixed).profile.foods_introduced := by
  have h := bulk_update_profile_spec sampleToday profileFoods argsMixed
  refine ⟨?_, ?_, ?_, h.2.2.2.2 "rice" (by decide)⟩
  · rw [h.1]
    rfl
  · rw [h.2.1]
    rfl
  · rw [h.2.2.1]
    rfl

end BabyNutritionAI
